import Mathlib

/-!
Verification development for the `ollama-discord-bot` repository
(single source file `bot.py`).

The development shallowly embeds the two stateful components of the bot:

* `ConversationManager` (bot.py lines 34-75) together with the memory-enabled
  text path `generate_response` (lines 78-109), and
* the image pipeline `generate_image` (lines 130-275): job submission,
  the polling loop over the ComfyUI history ledger, and payload extraction.

Python dictionaries holding JSON values are embedded as the inductive
`PyVal`; machine side effects (HTTP calls, `asyncio.sleep`) are passed in
explicitly through an environment record, and a raised-and-caught exception
is the `Option.none` outcome of the corresponding operation.
-/

set_option maxRecDepth 4000

/-- One stored exchange: the dictionary `{"role": role, "content": content}`
appended by `ConversationManager.add_message` (bot.py line 71). -/
structure Message where
  role : String
  content : String
deriving DecidableEq

/-- The speakers the spec's data model names `User` and `Assistant`; the
source stores them as the role strings `"user"` (bot.py line 93) and
`"assistant"` (line 104). -/
inductive Speaker where
  | user
  | assistant
deriving DecidableEq

/-- The role string the source writes for each speaker (bot.py lines 93, 104). -/
def Speaker.toRole : Speaker → String
  | Speaker.user => "user"
  | Speaker.assistant => "assistant"

/-- `self.conversations` of `ConversationManager` (bot.py line 42), the map from
user id to conversation history.  The Python dict lazily inserts an empty list
on first access (lines 54-55); a lookup of an absent key and a lookup of a key
holding `[]` are observationally identical, so the map is embedded as a total
function with default `[]`. -/
def ConvStore : Type := Nat → List Message

/-- The empty store created in `ConversationManager.__init__` (bot.py line 42). -/
def emptyStore : ConvStore := fun _ => []

/-- Pointwise update of the store, the effect of `self.conversations[user_id] = v`. -/
def updateStore (s : ConvStore) (uid : Nat) (v : List Message) : ConvStore :=
  fun u => if u = uid then v else s u

/-- `ConversationManager.get_conversation` (bot.py lines 44-56): return the
history for `user_id`, an empty one if absent. -/
def get_conversation (s : ConvStore) (uid : Nat) : List Message := s uid

/-- Python `l[-10:]` (bot.py line 73): the suffix of the last `n` elements. -/
def lastN (n : Nat) (l : List α) : List α := l.drop (l.length - n)

/-- `ConversationManager.add_message` (bot.py lines 58-73): append one message,
then keep only the last 10 entries. -/
def add_message (s : ConvStore) (uid : Nat) (role content : String) : ConvStore :=
  let conversation := get_conversation s uid
  let conversation := conversation ++ [⟨role, content⟩]
  updateStore s uid (lastN 10 conversation)

/-- The prompt built at bot.py line 94:
`"\n".join([f"{msg['role']}: {msg['content']}" for msg in conversation])`. -/
def render (conversation : List Message) : String :=
  String.intercalate "\n" (conversation.map (fun msg => msg.role ++ ": " ++ msg.content))

/-- The fixed string returned by `generate_response` when the try block raises
(bot.py line 109). -/
def fallbackResponse : String := "Sorry, I couldn\x27t generate a response at this time."

/-- Python truthiness of the optional `user_id` argument (bot.py lines 91, 103):
`None` and `0` are falsy, any other int is truthy. -/
def truthyId : Option Nat → Bool
  | Option.none => false
  | Option.some n => decide (n ≠ 0)

/-- `generate_response` (bot.py lines 78-109).  `infer` stands for the awaited
`ollama_client.generate` call together with the `response['response']` access
(lines 99-106); `Option.none` means that call raised, which the handler at
lines 107-109 converts into the fixed fallback string.  Returns the reply text
and the store after the call.  On the memory path the user message is appended
in place through the list object returned by `get_conversation` (line 93), so
it is stored untruncated before the inference call. -/
def generate_response (infer : String → Option String) (prompt : String)
    (with_memory : Bool) (user_id : Option Nat) (s : ConvStore) :
    String × ConvStore :=
  if with_memory && truthyId user_id then
    let uid := user_id.getD 0
    let conversation := get_conversation s uid ++ [⟨"user", prompt⟩]
    let s1 := updateStore s uid conversation
    let full_prompt := render conversation
    match infer full_prompt with
    | Option.some resp => (resp, add_message s1 uid "assistant" resp)
    | Option.none => (fallbackResponse, s1)
  else
    match infer prompt with
    | Option.some resp => (resp, s)
    | Option.none => (fallbackResponse, s)

/-- Folding a sequence of appends for one identity through `add_message`. -/
def applyMsgs (msgs : List Message) (uid : Nat) (s : ConvStore) : ConvStore :=
  msgs.foldl (fun st m => add_message st uid m.role m.content) s

/-- A Python/JSON value as it flows through `generate_image` (bot.py lines
130-275): strings, integers, JSON objects and JSON arrays.  These are the only
value kinds the ComfyUI interface of the source exchanges; object keys are
strings, as produced by `response.json()`. -/
inductive PyVal where
  | pstr (s : String)
  | pint (n : Int)
  | plist (xs : List PyVal)
  | pdict (fields : List (String × PyVal))

mutual

/-- Python `==` on embedded values, used by the `in` operator.  Structural;
Python dict equality is additionally order-insensitive, but no code path of
the source compares dictionaries. -/
def pyEq : PyVal → PyVal → Bool
  | PyVal.pstr a, PyVal.pstr b => decide (a = b)
  | PyVal.pint a, PyVal.pint b => decide (a = b)
  | PyVal.plist xs, PyVal.plist ys => pyEqList xs ys
  | PyVal.pdict xs, PyVal.pdict ys => pyEqFields xs ys
  | _, _ => false

def pyEqList : List PyVal → List PyVal → Bool
  | [], [] => true
  | x :: xs, y :: ys => pyEq x y && pyEqList xs ys
  | _, _ => false

def pyEqFields : List (String × PyVal) → List (String × PyVal) → Bool
  | [], [] => true
  | (k, v) :: xs, (k2, v2) :: ys => decide (k = k2) && pyEq v v2 && pyEqFields xs ys
  | _, _ => false

end

/-- Python truthiness of an embedded value (`if output_data`, bot.py line 241):
empty strings, zero and empty containers are falsy. -/
def pyTruthy : PyVal → Bool
  | PyVal.pstr s => decide (s ≠ "")
  | PyVal.pint n => decide (n ≠ 0)
  | PyVal.plist xs => !xs.isEmpty
  | PyVal.pdict fs => !fs.isEmpty

/-- Whether `small` occurs as a contiguous block at the head of `big`. -/
def leadsWith : List Char → List Char → Bool
  | [], _ => true
  | _ :: _, [] => false
  | a :: as, b :: bs => if a = b then leadsWith as bs else false

/-- Python `needle in hay` for strings: substring containment. -/
def strContainsSub (needle : List Char) : List Char → Bool
  | [] => leadsWith needle []
  | c :: rest => leadsWith needle (c :: rest) || strContainsSub needle rest

/-- Python `key in container` (bot.py lines 238, 241, 251): `Option.none` is a
raised `TypeError`. -/
def pyContains (container key : PyVal) : Option Bool :=
  match container with
  | PyVal.pdict fs => Option.some (fs.any (fun p => pyEq (PyVal.pstr p.1) key))
  | PyVal.plist xs => Option.some (xs.any (fun x => pyEq x key))
  | PyVal.pstr s =>
      match key with
      | PyVal.pstr k => Option.some (strContainsSub k.toList s.toList)
      | _ => Option.none
  | PyVal.pint _ => Option.none

/-- Python subscription `container[key]` (bot.py lines 239, 242): `Option.none`
is a raised `KeyError`, `IndexError` or `TypeError`.  List and string indices
may be negative, counting from the end, as in Python. -/
def pyGetItem (container key : PyVal) : Option PyVal :=
  match container with
  | PyVal.pdict fs =>
      match key with
      | PyVal.pstr k => fs.lookup k
      | _ => Option.none
  | PyVal.plist xs =>
      match key with
      | PyVal.pint i =>
          let j : Int := if i < 0 then i + xs.length else i
          if 0 ≤ j then xs.get? j.toNat else Option.none
      | _ => Option.none
  | PyVal.pstr s =>
      match key with
      | PyVal.pint i =>
          let j : Int := if i < 0 then i + s.length else i
          if 0 ≤ j then (s.toList.get? j.toNat).map (fun c => PyVal.pstr (String.mk [c]))
          else Option.none
      | _ => Option.none
  | PyVal.pint _ => Option.none

mutual

/-- Python `repr` of an embedded value, used by `str` on containers.  String
escaping inside `repr` of a string is not reproduced (no string the source
interpolates contains quotes). -/
def pyRepr : PyVal → String
  | PyVal.pstr s => "\x27" ++ s ++ "\x27"
  | PyVal.pint n => toString n
  | PyVal.plist xs => "[" ++ pyReprSeq xs ++ "]"
  | PyVal.pdict fs => "\x7b" ++ pyReprFields fs ++ "\x7d"

def pyReprSeq : List PyVal → String
  | [] => ""
  | [x] => pyRepr x
  | x :: y :: xs => pyRepr x ++ ", " ++ pyReprSeq (y :: xs)

def pyReprFields : List (String × PyVal) → String
  | [] => ""
  | [(k, v)] => "\x27" ++ k ++ "\x27: " ++ pyRepr v
  | (k, v) :: f :: fs => "\x27" ++ k ++ "\x27: " ++ pyRepr v ++ ", " ++ pyReprFields (f :: fs)

end

/-- Python `str`, as applied by f-string interpolation (bot.py line 255). -/
def pyToStr : PyVal → String
  | PyVal.pstr s => s
  | PyVal.pint n => toString n
  | PyVal.plist xs => pyRepr (PyVal.plist xs)
  | PyVal.pdict fs => pyRepr (PyVal.pdict fs)

/-- The value of a standard base64 alphabet character. -/
def b64Val? (c : Char) : Option Nat :=
  if 65 ≤ c.toNat ∧ c.toNat ≤ 90 then Option.some (c.toNat - 65)
  else if 97 ≤ c.toNat ∧ c.toNat ≤ 122 then Option.some (c.toNat - 97 + 26)
  else if 48 ≤ c.toNat ∧ c.toNat ≤ 57 then Option.some (c.toNat - 48 + 52)
  else if c = '+' then Option.some 62
  else if c = '/' then Option.some 63
  else Option.none

/-- Decode a run of base64 groups of four characters into bytes; `'='` padding
is accepted only at the end of the final group. -/
def b64Quads : List Char → Option (List Nat)
  | [] => Option.some []
  | a :: b :: c :: d :: rest =>
      match b64Val? a, b64Val? b, b64Val? c, b64Val? d with
      | Option.some x, Option.some y, Option.some z, Option.some w =>
          (fun bs => (x * 4 + y / 16) :: ((y % 16) * 16 + z / 4) :: ((z % 4) * 64 + w) :: bs) <$>
            b64Quads rest
      | Option.some x, Option.some y, Option.some z, Option.none =>
          if d = '=' ∧ rest = [] then Option.some [x * 4 + y / 16, (y % 16) * 16 + z / 4]
          else Option.none
      | Option.some x, Option.some y, Option.none, Option.none =>
          if c = '=' ∧ d = '=' ∧ rest = [] then Option.some [x * 4 + y / 16]
          else Option.none
      | _, _, _, _ => Option.none
  | _ => Option.none

/-- `base64.b64decode` (bot.py line 248) with its default lenient validation:
characters outside the alphabet are discarded, then the length must be a
multiple of four and padding must be well placed; `Option.none` is a raised
`binascii.Error`.  Bytes are numbers below 256. -/
def b64decode (s : String) : Option (List Nat) :=
  let cs := s.toList.filter (fun ch => (b64Val? ch).isSome || ch == '=')
  if cs.length % 4 = 0 then b64Quads cs else Option.none

/-- The characters after the first comma, if any: Python
`s.split(",", 1)[1]` (bot.py line 248), where `Option.none` is the
`IndexError` raised when the string holds no comma. -/
def afterComma : List Char → Option String
  | [] => Option.none
  | c :: rest => if c = ',' then Option.some (String.mk rest) else afterComma rest

/-- `s.split(",", 1)[1]` on a string value (bot.py line 248). -/
def splitAfterComma (s : String) : Option String := afterComma s.toList

/-- The backend base URL, the default of the `COMFYUI_API_URL` environment
variable (bot.py line 24). -/
def COMFYUI_API_URL : String := "http://127.0.0.1:8188"

/-- The outside world as `generate_image` sees it.  Each HTTP exchange is a
function of what the source sends; `Option.none` is a transport-level failure
(the request raised), `Option.some (status, body)` a reply. -/
structure ImgEnv where
  /-- `POST /prompt` (bot.py line 229), keyed by the JSON body sent. -/
  post : PyVal → Option (Nat × PyVal)
  /-- `GET /history/prompt_id` at the t-th iteration of the poll loop
  (bot.py line 235). -/
  historyGet : Nat → Option (Nat × PyVal)
  /-- `GET` of an image URL (bot.py line 256), keyed by the URL string;
  the body of a reply is raw bytes. -/
  viewGet : String → Option (Nat × List Nat)

/-- Payload extraction (bot.py lines 246-267): the dispatch on the shape of
`image_data` once the output node is present.  `Option.some bs` are the bytes
wrapped in `BytesIO` at line 268; `Option.none` is every failure: an explicit
`return None` (lines 261, 264, 267) or a raised exception caught at lines
273-275 (base64 `IndexError`/`binascii.Error`, transport error of the view
request). -/
def extractBytes (env : ImgEnv) (image_data : PyVal) : Option (List Nat) :=
  match image_data with
  | PyVal.pstr s =>
      match splitAfterComma s with
      | Option.none => Option.none
      | Option.some rem => b64decode rem
  | PyVal.pdict fields =>
      if (fields.lookup "filename").isSome && (fields.lookup "subfolder").isSome then
        let filename := (fields.lookup "filename").getD (PyVal.pstr "")
        let subfolder := (fields.lookup "subfolder").getD (PyVal.pstr "")
        let image_url := COMFYUI_API_URL ++ "/view?filename=" ++ pyToStr filename ++
          "&subfolder=" ++ pyToStr subfolder
        match env.viewGet image_url with
        | Option.none => Option.none
        | Option.some (st, body) => if st = 200 then Option.some body else Option.none
      else Option.none
  | _ => Option.none

/-- One iteration of the poll loop body (bot.py lines 235-269) for the t-th
probe.  `Option.none` means the body fell through to `await asyncio.sleep(1)`
and the loop continues; `Option.some r` means `generate_image` returns `r`
here (`r = Option.none`: an explicit `return None` or a raised exception
caught at lines 273-275; `r = Option.some bs`: `return BytesIO(image_data)`). -/
def pollStep (env : ImgEnv) (prompt_id : PyVal) (t : Nat) : Option (Option (List Nat)) :=
  match env.historyGet t with
  | Option.none => Option.some Option.none
  | Option.some (status, history_data) =>
    if status = 200 then
      match pyContains history_data prompt_id with
      | Option.none => Option.some Option.none
      | Option.some false => Option.none
      | Option.some true =>
        match pyGetItem history_data prompt_id with
        | Option.none => Option.some Option.none
        | Option.some entry =>
          match pyGetItem entry (PyVal.pstr "outputs") with
          | Option.none => Option.some Option.none
          | Option.some output_data =>
            if pyTruthy output_data then
              match pyContains output_data (PyVal.pstr "9") with
              | Option.none => Option.some Option.none
              | Option.some false => Option.none
              | Option.some true =>
                match (pyGetItem output_data (PyVal.pstr "9")).bind
                    (fun v => pyGetItem v (PyVal.pstr "images")) |>.bind
                    (fun v => pyGetItem v (PyVal.pint 0)) with
                | Option.none => Option.some Option.none
                | Option.some image_data => Option.some (extractBytes env image_data)
            else Option.none
    else Option.none

/-- Observable outcome of running `generate_image` for a bounded number of
poll iterations: either the function returned a value, or the `while True`
loop at line 234 is still running. -/
inductive GenRes where
  | returned (r : Option (List Nat))
  | running
deriving DecidableEq

/-- The `while True` poll loop (bot.py lines 234-269), unrolled for `fuel`
iterations starting at probe index `t`.  The source gives the loop no bound of
its own, so `fuel` counts elapsed poll intervals (one `asyncio.sleep(1)` per
iteration). -/
def pollLoop (env : ImgEnv) (prompt_id : PyVal) : Nat → Nat → GenRes
  | _, 0 => GenRes.running
  | t, Nat.succ fuel =>
      match pollStep env prompt_id t with
      | Option.some r => GenRes.returned r
      | Option.none => pollLoop env prompt_id (t + 1) fuel

/-- The fixed ComfyUI workflow template (bot.py lines 140-225) with the
positive-prompt text substituted into node "6" (line 184). -/
def workflow (prompt : String) : PyVal :=
  PyVal.pdict [
    ("3", PyVal.pdict [
      ("inputs", PyVal.pdict [
        ("seed", PyVal.pint 359819880975166),
        ("steps", PyVal.pint 15),
        ("cfg", PyVal.pint 1),
        ("sampler_name", PyVal.pstr "euler"),
        ("scheduler", PyVal.pstr "normal"),
        ("denoise", PyVal.pint 1),
        ("model", PyVal.plist [PyVal.pstr "4", PyVal.pint 0]),
        ("positive", PyVal.plist [PyVal.pstr "6", PyVal.pint 0]),
        ("negative", PyVal.plist [PyVal.pstr "7", PyVal.pint 0]),
        ("latent_image", PyVal.plist [PyVal.pstr "5", PyVal.pint 0])]),
      ("class_type", PyVal.pstr "KSampler")]),
    ("4", PyVal.pdict [
      ("inputs", PyVal.pdict [
        ("ckpt_name", PyVal.pstr "flux1-dev-fp8.safetensors")]),
      ("class_type", PyVal.pstr "CheckpointLoaderSimple")]),
    ("5", PyVal.pdict [
      ("inputs", PyVal.pdict [
        ("width", PyVal.pint 512),
        ("height", PyVal.pint 512),
        ("batch_size", PyVal.pint 1)]),
      ("class_type", PyVal.pstr "EmptyLatentImage")]),
    ("6", PyVal.pdict [
      ("inputs", PyVal.pdict [
        ("text", PyVal.pstr prompt),
        ("clip", PyVal.plist [PyVal.pstr "4", PyVal.pint 1])]),
      ("class_type", PyVal.pstr "CLIPTextEncode")]),
    ("7", PyVal.pdict [
      ("inputs", PyVal.pdict [
        ("text", PyVal.pstr "text, watermark"),
        ("clip", PyVal.plist [PyVal.pstr "4", PyVal.pint 1])]),
      ("class_type", PyVal.pstr "CLIPTextEncode")]),
    ("8", PyVal.pdict [
      ("inputs", PyVal.pdict [
        ("samples", PyVal.plist [PyVal.pstr "3", PyVal.pint 0]),
        ("vae", PyVal.plist [PyVal.pstr "4", PyVal.pint 2])]),
      ("class_type", PyVal.pstr "VAEDecode")]),
    ("9", PyVal.pdict [
      ("inputs", PyVal.pdict [
        ("filename_prefix", PyVal.pstr "ComfyUI"),
        ("images", PyVal.plist [PyVal.pstr "8", PyVal.pint 0])]),
      ("class_type", PyVal.pstr "SaveImage")])]

/-- The JSON body posted to the job-submission endpoint:
`json={"prompt": workflow}` (bot.py line 229). -/
def submitBody (prompt : String) : PyVal :=
  PyVal.pdict [("prompt", workflow prompt)]

/-- `generate_image` (bot.py lines 130-275), run for at most `fuel` poll
iterations.  The submission reply is taken from `env.post`; a non-200 status
is logged and `None` returned (lines 270-272), a transport failure raises and
is caught (lines 273-275), and a 200 reply has its `prompt_id` field read
(line 232, a `KeyError` if absent) before the poll loop starts. -/
def generate_image (env : ImgEnv) (prompt : String) (fuel : Nat) : GenRes :=
  match env.post (submitBody prompt) with
  | Option.none => GenRes.returned Option.none
  | Option.some (status, data) =>
    if status = 200 then
      match pyGetItem data (PyVal.pstr "prompt_id") with
      | Option.none => GenRes.returned Option.none
      | Option.some prompt_id => pollLoop env prompt_id 0 fuel
    else GenRes.returned Option.none

/-- A backend whose history ledger never lists the submitted job: submission
succeeds, every poll returns status 200 with an empty ledger. -/
def envNeverReady : ImgEnv where
  post := fun _ => Option.some (200, PyVal.pdict [("prompt_id", PyVal.pstr "job-1")])
  historyGet := fun _ => Option.some (200, PyVal.pdict [])
  viewGet := fun _ => Option.none

/-- A backend whose submission endpoint is unreachable (the POST raises). -/
def envDown : ImgEnv where
  post := fun _ => Option.none
  historyGet := fun _ => Option.none
  viewGet := fun _ => Option.none

/-- A backend that rejects the submission with a 500 status. -/
def envRejected : ImgEnv where
  post := fun _ => Option.some (500, PyVal.pdict [])
  historyGet := fun _ => Option.none
  viewGet := fun _ => Option.none

/-- A backend that accepts the job and completes it with a payload of
unrecognized shape (neither a string nor a dict with filename and subfolder). -/
def envMalformed : ImgEnv where
  post := fun _ => Option.some (200, PyVal.pdict [("prompt_id", PyVal.pstr "p1")])
  historyGet := fun _ => Option.some (200, PyVal.pdict [("p1", PyVal.pdict [("outputs",
    PyVal.pdict [("9", PyVal.pdict [("images",
      PyVal.plist [PyVal.pdict [("foo", PyVal.pstr "bar")]])])])])])
  viewGet := fun _ => Option.none

/-- A ledger where the job entry is present but the designated output node
"9" is not among its outputs yet. -/
def ledgerNotReady : PyVal :=
  PyVal.pdict [("p1", PyVal.pdict [("outputs", PyVal.pdict [("8", PyVal.pdict [])])])]

/-- A backend that accepts the job and forever reports the entry without the
output node "9". -/
def envNotReady : ImgEnv where
  post := fun _ => Option.some (200, PyVal.pdict [("prompt_id", PyVal.pstr "p1")])
  historyGet := fun _ => Option.some (200, ledgerNotReady)
  viewGet := fun _ => Option.none

/-- A backend that completes the job with a file-reference payload and serves
the bytes `[9, 8, 7]` from its file-view endpoint. -/
def envReady : ImgEnv where
  post := fun _ => Option.some (200, PyVal.pdict [("prompt_id", PyVal.pstr "p1")])
  historyGet := fun _ => Option.some (200, PyVal.pdict [("p1", PyVal.pdict [("outputs",
    PyVal.pdict [("9", PyVal.pdict [("images", PyVal.plist [PyVal.pdict
      [("filename", PyVal.pstr "a.png"), ("subfolder", PyVal.pstr "x")]])])])])])
  viewGet := fun u => if u = "http://127.0.0.1:8188/view?filename=a.png&subfolder=x"
    then Option.some (200, [9, 8, 7]) else Option.none

/-- Ten distinct user exchanges, filling one conversation to its cap. -/
def msgs10 : List Message :=
  (List.range 10).map (fun i => ⟨"user", toString i⟩)

/-- The store after appending `msgs10` for identity 1 through `add_message`. -/
def store10 : ConvStore := applyMsgs msgs10 1 emptyStore

/-- The history ledger (as a `Prop` on the environment) that never populates
the designated output node "9" for the polled job: every probe answers with
status 200 and a ledger in which the job's entry is either absent or carries
an outputs map without the key "9". -/
def neverPopulated (env : ImgEnv) (pid : PyVal) : Prop :=
  ∀ t, ∃ hd, env.historyGet t = Option.some (200, hd) ∧
    (pyContains hd pid = Option.some false ∨
     ∃ entry outs, pyContains hd pid = Option.some true ∧
       pyGetItem hd pid = Option.some entry ∧
       pyGetItem entry (PyVal.pstr "outputs") = Option.some (PyVal.pdict outs) ∧
       outs.lookup "9" = Option.none)

theorem lastN_nil (n : Nat) : lastN n ([] : List α) = [] := by
  simp [lastN]

theorem lastN_zero (l : List α) : lastN 0 l = [] := by
  simp [lastN]

theorem length_lastN (n : Nat) (l : List α) : (lastN n l).length = min n l.length := by
  simp [lastN]
  omega

theorem lastN_append_one (n : Nat) (l : List α) (x : α) :
    lastN (n + 1) (l ++ [x]) = lastN n l ++ [x] := by
  unfold lastN
  rw [List.drop_append_eq_append_drop]
  have h1 : (l ++ [x]).length - (n + 1) = l.length - n := by
    simp
  have h2 : l.length - n - l.length = 0 := by omega
  rw [h1, h2]
  simp

theorem lastN_lastN (k m : Nat) (l : List α) :
    lastN k (lastN m l) = lastN (min k m) l := by
  unfold lastN
  rw [List.drop_drop]
  congr 1
  simp
  omega

theorem lastN_stable_append (n : Nat) (l : List α) (x : α) :
    lastN n (lastN n l ++ [x]) = lastN n (l ++ [x]) := by
  cases n with
  | zero => rw [lastN_zero, lastN_zero]
  | succ k =>
      rw [lastN_append_one, lastN_lastN, lastN_append_one]
      congr 2
      omega

theorem get_add_message (s : ConvStore) (uid : Nat) (role content : String) :
    get_conversation (add_message s uid role content) uid =
      lastN 10 (get_conversation s uid ++ [⟨role, content⟩]) := by
  simp [add_message, get_conversation, updateStore]

theorem applyMsgs_append (msgs : List Message) (m : Message) (uid : Nat) (s : ConvStore) :
    applyMsgs (msgs ++ [m]) uid s = add_message (applyMsgs msgs uid s) uid m.role m.content := by
  simp [applyMsgs]

/-- C2 (amended): for every sequence of appends to one identity made through
`add_message`, `get_conversation` returns exactly the suffix of the 10 newest
appended exchanges in their original relative order, so its length never
exceeds 10.  (The unamended claim's "length at most 10 at all times" fails on
the direct, untruncated user-prompt append inside `generate_response`; see the
counterexample.) -/
theorem C2_get_returns_last_ten (msgs : List Message) (uid : Nat) :
    get_conversation (applyMsgs msgs uid emptyStore) uid = lastN 10 msgs ∧
    (get_conversation (applyMsgs msgs uid emptyStore) uid).length ≤ 10 := by
  have key : get_conversation (applyMsgs msgs uid emptyStore) uid = lastN 10 msgs := by
    induction msgs using List.reverseRecOn with
    | nil => simp [applyMsgs, get_conversation, emptyStore, lastN]
    | append_singleton ms m ih =>
        rw [applyMsgs_append, get_add_message, ih, lastN_stable_append]
  refine ⟨key, ?_⟩
  rw [key, length_lastN]
  omega

/-- C2 counterexample: starting from a history of exactly 10 exchanges built
through `add_message`, a memory-enabled `generate_response` turn whose
inference call raises leaves the stored history at length 11, refuting
"length at most 10 at all times". -/
theorem C2_counterexample :
    ((generate_response (fun _ => Option.none) "eleventh" true (Option.some 1)
        store10).2 1).length = 11 ∧
    ¬ ((generate_response (fun _ => Option.none) "eleventh" true (Option.some 1)
        store10).2 1).length ≤ 10 ∧
    (get_conversation store10 1).length = 10 := by
  refine ⟨rfl, by decide, rfl⟩

/-- C9: two appends for the same identity, each an atomic `add_message` step
(the method suspends at no point, so under the cooperative scheduler of the
source the two read-modify-write sequences cannot interleave), leave the
history equal to the last-10 suffix of the serially merged sequence in either
serialization order; in particular the resulting length is the full merged
length capped at 10 — no update is lost. -/
theorem C9_no_lost_update (s : ConvStore) (uid : Nat) (r1 c1 r2 c2 : String) :
    get_conversation (add_message (add_message s uid r1 c1) uid r2 c2) uid
        = lastN 10 (get_conversation s uid ++ [⟨r1, c1⟩, ⟨r2, c2⟩]) ∧
    get_conversation (add_message (add_message s uid r2 c2) uid r1 c1) uid
        = lastN 10 (get_conversation s uid ++ [⟨r2, c2⟩, ⟨r1, c1⟩]) ∧
    (get_conversation (add_message (add_message s uid r1 c1) uid r2 c2) uid).length
        = min 10 ((get_conversation s uid).length + 2) ∧
    (get_conversation (add_message (add_message s uid r2 c2) uid r1 c1) uid).length
        = min 10 ((get_conversation s uid).length + 2) := by
  have h12 : get_conversation (add_message (add_message s uid r1 c1) uid r2 c2) uid
      = lastN 10 (get_conversation s uid ++ [⟨r1, c1⟩, ⟨r2, c2⟩]) := by
    rw [get_add_message, get_add_message, lastN_stable_append, List.append_assoc]
    rfl
  have h21 : get_conversation (add_message (add_message s uid r2 c2) uid r1 c1) uid
      = lastN 10 (get_conversation s uid ++ [⟨r2, c2⟩, ⟨r1, c1⟩]) := by
    rw [get_add_message, get_add_message, lastN_stable_append, List.append_assoc]
    rfl
  refine ⟨h12, h21, ?_, ?_⟩
  · rw [h12, length_lastN]
    simp
  · rw [h21, length_lastN]
    simp

/-- C10: when the inference call of a memory-enabled `generate_response` turn
raises, the function returns the fixed fallback string, and the stored history
equals the prior history with the user's prompt appended — untruncated and
with no assistant exchange added (no rollback on error). -/
theorem C10_inference_failure (infer : String → Option String) (s : ConvStore)
    (uid : Nat) (prompt : String) (huid : uid ≠ 0)
    (hfail : infer (render (get_conversation s uid ++ [⟨"user", prompt⟩])) = Option.none) :
    (generate_response infer prompt true (Option.some uid) s).1 = fallbackResponse ∧
    (generate_response infer prompt true (Option.some uid) s).2 uid
      = get_conversation s uid ++ [⟨"user", prompt⟩] := by
  have hc : (true && truthyId (Option.some uid)) = true := by
    simp [truthyId, huid]
  unfold generate_response
  rw [hc, if_pos rfl]
  simp only [Option.getD_some]
  rw [hfail]
  exact ⟨rfl, by simp [updateStore, get_conversation]⟩

theorem C10_witness :
    (1 : Nat) ≠ 0 ∧
    (generate_response (fun _ => Option.none) "hello" true (Option.some 1) emptyStore).1
      = fallbackResponse ∧
    (generate_response (fun _ => Option.none) "hello" true (Option.some 1) emptyStore).2 1
      = [⟨"user", "hello"⟩] := by
  refine ⟨by decide, ?_, ?_⟩
  · exact (C10_inference_failure (fun _ => Option.none) emptyStore 1 "hello"
      (by decide) rfl).1
  · exact (C10_inference_failure (fun _ => Option.none) emptyStore 1 "hello"
      (by decide) rfl).2

theorem intercalate_go_append (s acc t : String) (l : List String) :
    String.intercalate.go (acc ++ t) s l = acc ++ String.intercalate.go t s l := by
  induction l generalizing t with
  | nil => rfl
  | cons a as ih =>
      simp only [String.intercalate.go, String.append_assoc]
      exact ih (t ++ (s ++ a))

theorem intercalate_cons_cons (s a b : String) (l : List String) :
    String.intercalate s (a :: b :: l) = a ++ s ++ String.intercalate s (b :: l) := by
  show String.intercalate.go a s (b :: l) = a ++ s ++ String.intercalate.go b s l
  rw [String.intercalate.go]
  exact intercalate_go_append s (a ++ s) b l

/-- C4 (amended): `render` joins the exchanges in order, one line per
exchange, each line formatted as the role string followed by ": " and the
content; since the program stores the speakers as the role strings "user" and
"assistant", the two-exchange history of the claim renders exactly to
"user: hi\nassistant: yo" (lower-case roles, not "User: hi\nAssistant: yo"). -/
theorem C4_render_format (m m2 : Message) (ms : List Message) :
    render [] = "" ∧
    render [m] = m.role ++ ": " ++ m.content ∧
    render (m :: m2 :: ms) = (m.role ++ ": " ++ m.content) ++ "\n" ++ render (m2 :: ms) ∧
    render [⟨Speaker.user.toRole, "hi"⟩, ⟨Speaker.assistant.toRole, "yo"⟩]
      = "user: hi\nassistant: yo" := by
  refine ⟨rfl, rfl, ?_, rfl⟩
  unfold render
  simp only [List.map_cons]
  exact intercalate_cons_cons "\n" _ _ _

/-- C4 counterexample: on the two-exchange history of the claim, built from
the speakers as the program stores them, `render` does not produce
"User: hi\nAssistant: yo"; it produces the lower-case "user: hi\nassistant: yo". -/
theorem C4_counterexample :
    render [⟨Speaker.user.toRole, "hi"⟩, ⟨Speaker.assistant.toRole, "yo"⟩]
      ≠ "User: hi\nAssistant: yo" ∧
    render [⟨Speaker.user.toRole, "hi"⟩, ⟨Speaker.assistant.toRole, "yo"⟩]
      = "user: hi\nassistant: yo" := by
  exact ⟨by decide, rfl⟩

theorem lookup_none_any_false (outs : List (String × PyVal)) (k : String)
    (h : outs.lookup k = Option.none) :
    outs.any (fun p => pyEq (PyVal.pstr p.1) (PyVal.pstr k)) = false := by
  induction outs with
  | nil => rfl
  | cons p t ih =>
      obtain ⟨k2, v⟩ := p
      by_cases hk : k = k2
      · subst hk
        simp [List.lookup_cons] at h
      · have h2 : t.lookup k = Option.none := by
          rw [List.lookup_cons] at h
          have hbeq : (k == k2) = false := by simp [hk]
          rw [hbeq] at h
          exact h
        have hf : pyEq (PyVal.pstr k2) (PyVal.pstr k) = false := by
          simp [pyEq, Ne.symm hk]
        simp only [List.any_cons, hf, ih h2, Bool.false_or]

theorem pollStep_entry_absent (env : ImgEnv) (pid : PyVal) (t : Nat) (hd : PyVal)
    (hh : env.historyGet t = Option.some (200, hd))
    (hc : pyContains hd pid = Option.some false) :
    pollStep env pid t = Option.none := by
  simp [pollStep, hh, hc]

theorem pollStep_entry_without_node (env : ImgEnv) (pid : PyVal) (t : Nat)
    (hd entry : PyVal) (outs : List (String × PyVal))
    (hh : env.historyGet t = Option.some (200, hd))
    (hc : pyContains hd pid = Option.some true)
    (hg : pyGetItem hd pid = Option.some entry)
    (ho : pyGetItem entry (PyVal.pstr "outputs") = Option.some (PyVal.pdict outs))
    (h9 : outs.lookup "9" = Option.none) :
    pollStep env pid t = Option.none := by
  have hno : pyContains (PyVal.pdict outs) (PyVal.pstr "9") = Option.some false := by
    simp only [pyContains, Option.some.injEq]
    exact lookup_none_any_false outs "9" h9
  by_cases hout : outs.isEmpty
  · simp [pollStep, hh, hc, hg, ho, pyTruthy, hout]
  · simp [pollStep, hh, hc, hg, ho, pyTruthy, hout, hno]

theorem pollStep_not_ready (env : ImgEnv) (pid : PyVal)
    (h : neverPopulated env pid) (t : Nat) : pollStep env pid t = Option.none := by
  obtain ⟨hd, hh, hcase⟩ := h t
  rcases hcase with hc | ⟨entry, outs, hc, hg, ho, h9⟩
  · exact pollStep_entry_absent env pid t hd hh hc
  · exact pollStep_entry_without_node env pid t hd entry outs hh hc hg ho h9

/-- C1 (amended): the poll loop of `generate_image` has no timeout.  Against a
ledger that never populates the designated output node "9", the loop is still
running after every number of poll intervals: it never returns `Timeout` (no
such outcome exists in the code) or anything else, and the wait is unbounded —
the only bound on the loop is the readiness of the ledger itself. -/
theorem C1_no_timeout (env : ImgEnv) (pid : PyVal) (h : neverPopulated env pid) :
    ∀ fuel t, pollLoop env pid t fuel = GenRes.running := by
  intro fuel
  induction fuel with
  | zero => intro t; rfl
  | succ n ih =>
      intro t
      show (match pollStep env pid t with
        | Option.some r => GenRes.returned r
        | Option.none => pollLoop env pid (t + 1) n) = GenRes.running
      rw [pollStep_not_ready env pid h t]
      exact ih (t + 1)

theorem C1_witness :
    neverPopulated envNeverReady (PyVal.pstr "job-1") ∧
    pollLoop envNeverReady (PyVal.pstr "job-1") 0 7 = GenRes.running := by
  have hnp : neverPopulated envNeverReady (PyVal.pstr "job-1") := by
    intro t
    exact ⟨PyVal.pdict [], rfl, Or.inl rfl⟩
  exact ⟨hnp, C1_no_timeout envNeverReady (PyVal.pstr "job-1") hnp 7 0⟩

/-- C1 counterexample: against the backend whose ledger never lists the job,
`generate_image` is still inside its poll loop after 300 poll intervals (five
minutes of reference time) — it has not returned `Timeout` or any other value,
refuting the claim that a configured poll-timeout budget bounds the wait; the
code configures no budget at all. -/
theorem C1_counterexample :
    generate_image envNeverReady "a sunset" 300 = GenRes.running := by
  rfl

/-- C5: one poll iteration returns a payload only when the ledger's entry for
the prompt_id is present AND that entry's outputs contain the designated
output-node key "9"; a poll response in which the entry is present with an
outputs map lacking "9" makes the iteration fall through to the sleep, so the
loop polls again instead of returning. -/
theorem C5_output_node_gate :
    (∀ env pid t hd entry outs,
      env.historyGet t = Option.some (200, hd) →
      pyContains hd pid = Option.some true →
      pyGetItem hd pid = Option.some entry →
      pyGetItem entry (PyVal.pstr "outputs") = Option.some (PyVal.pdict outs) →
      outs.lookup "9" = Option.none →
      pollStep env pid t = Option.none) ∧
    (∀ env pid t b, pollStep env pid t = Option.some (Option.some b) →
      ∃ hd, env.historyGet t = Option.some (200, hd) ∧
        pyContains hd pid = Option.some true ∧
        ∃ entry output_data, pyGetItem hd pid = Option.some entry ∧
          pyGetItem entry (PyVal.pstr "outputs") = Option.some output_data ∧
          pyContains output_data (PyVal.pstr "9") = Option.some true) := by
  constructor
  · intro env pid t hd entry outs hh hc hg ho h9
    exact pollStep_entry_without_node env pid t hd entry outs hh hc hg ho h9
  · intro env pid t b h
    cases hh : env.historyGet t with
    | none =>
        rw [show pollStep env pid t = Option.some Option.none by simp [pollStep, hh]] at h
        simp at h
    | some p =>
      obtain ⟨status, hd⟩ := p
      by_cases hst : status = 200
      · subst hst
        cases hc : pyContains hd pid with
        | none =>
            rw [show pollStep env pid t = Option.some Option.none by
              simp [pollStep, hh, hc]] at h
            simp at h
        | some bcont =>
          cases bcont with
          | false =>
              rw [show pollStep env pid t = Option.none by simp [pollStep, hh, hc]] at h
              simp at h
          | true =>
            cases hg : pyGetItem hd pid with
            | none =>
                rw [show pollStep env pid t = Option.some Option.none by
                  simp [pollStep, hh, hc, hg]] at h
                simp at h
            | some entry =>
              cases ho : pyGetItem entry (PyVal.pstr "outputs") with
              | none =>
                  rw [show pollStep env pid t = Option.some Option.none by
                    simp [pollStep, hh, hc, hg, ho]] at h
                  simp at h
              | some output_data =>
                by_cases htr : pyTruthy output_data = true
                · cases h9 : pyContains output_data (PyVal.pstr "9") with
                  | none =>
                      rw [show pollStep env pid t = Option.some Option.none by
                        simp [pollStep, hh, hc, hg, ho, htr, h9]] at h
                      simp at h
                  | some b9 =>
                    cases b9 with
                    | false =>
                        rw [show pollStep env pid t = Option.none by
                          simp [pollStep, hh, hc, hg, ho, htr, h9]] at h
                        simp at h
                    | true =>
                        exact ⟨hd, rfl, hc, entry, output_data, hg, ho, h9⟩
                · rw [show pollStep env pid t = Option.none by
                    simp [pollStep, hh, hc, hg, ho, htr]] at h
                  simp at h
      · rw [show pollStep env pid t = Option.none by simp [pollStep, hh, hst]] at h
        simp at h

theorem C5_witness :
    pollStep envNotReady (PyVal.pstr "p1") 0 = Option.none ∧
    (∃ hd, envReady.historyGet 0 = Option.some (200, hd) ∧
      pyContains hd (PyVal.pstr "p1") = Option.some true ∧
      ∃ entry output_data, pyGetItem hd (PyVal.pstr "p1") = Option.some entry ∧
        pyGetItem entry (PyVal.pstr "outputs") = Option.some output_data ∧
        pyContains output_data (PyVal.pstr "9") = Option.some true) := by
  constructor
  · exact C5_output_node_gate.1 envNotReady (PyVal.pstr "p1") 0 ledgerNotReady
      (PyVal.pdict [("outputs", PyVal.pdict [("8", PyVal.pdict [])])])
      [("8", PyVal.pdict [])] rfl rfl rfl rfl rfl
  · exact C5_output_node_gate.2 envReady (PyVal.pstr "p1") 0 [9, 8, 7] rfl

/-- C6: for a file-reference payload (a dict with string fields filename and
subfolder), extraction issues a GET to the backend file-view endpoint with the
two values as query parameters; a 200 reply with body bytes B yields exactly
B, and a non-success status or a transport failure yields the failure
outcome (`Option.none`, the code's undifferentiated `None`; see C3 for the
collapse of the spec's RetrievalFailed label). -/
theorem C6_file_reference (env : ImgEnv) (fields : List (String × PyVal))
    (f s : String) (B : List Nat) (st : Nat)
    (hf : fields.lookup "filename" = Option.some (PyVal.pstr f))
    (hs : fields.lookup "subfolder" = Option.some (PyVal.pstr s)) :
    (env.viewGet (COMFYUI_API_URL ++ "/view?filename=" ++ f ++ "&subfolder=" ++ s)
        = Option.some (200, B) →
      extractBytes env (PyVal.pdict fields) = Option.some B) ∧
    (env.viewGet (COMFYUI_API_URL ++ "/view?filename=" ++ f ++ "&subfolder=" ++ s)
        = Option.some (st, B) → st ≠ 200 →
      extractBytes env (PyVal.pdict fields) = Option.none) ∧
    (env.viewGet (COMFYUI_API_URL ++ "/view?filename=" ++ f ++ "&subfolder=" ++ s)
        = Option.none →
      extractBytes env (PyVal.pdict fields) = Option.none) := by
  refine ⟨?_, ?_, ?_⟩
  · intro hv
    simp [extractBytes, hf, hs, pyToStr, hv]
  · intro hv hst
    simp [extractBytes, hf, hs, pyToStr, hv, hst]
  · intro hv
    simp [extractBytes, hf, hs, pyToStr, hv]

theorem C6_witness :
    extractBytes envReady (PyVal.pdict
      [("filename", PyVal.pstr "a.png"), ("subfolder", PyVal.pstr "x")])
      = Option.some [9, 8, 7] := by
  exact (C6_file_reference envReady
    [("filename", PyVal.pstr "a.png"), ("subfolder", PyVal.pstr "x")]
    "a.png" "x" [9, 8, 7] 0 rfl rfl).1 rfl

/-- C7: for the inline payload string "data:image/png;base64,AAAA", extraction
splits on the first comma, discards the data-URI header before it, and base64
decodes exactly the remainder "AAAA", whose decoding is the three zero
bytes. -/
theorem C7_base64_header (env : ImgEnv) :
    splitAfterComma "data:image/png;base64,AAAA" = Option.some "AAAA" ∧
    extractBytes env (PyVal.pstr "data:image/png;base64,AAAA") = b64decode "AAAA" ∧
    b64decode "AAAA" = Option.some [0, 0, 0] :=
  ⟨rfl, rfl, rfl⟩

/-- C8: every payload that is neither a string nor a dict holding both the
filename and the subfolder keys makes extraction fail (the code's `None`);
so does a dict missing one of the keys — such as the claim's example payload
with only a "foo" field — and a string whose after-comma remainder does not
base64-decode. -/
theorem C8_unrecognized_payload :
    (∀ env n, extractBytes env (PyVal.pint n) = Option.none) ∧
    (∀ env xs, extractBytes env (PyVal.plist xs) = Option.none) ∧
    (∀ env fields, fields.lookup "filename" = Option.none ∨
        fields.lookup "subfolder" = Option.none →
      extractBytes env (PyVal.pdict fields) = Option.none) ∧
    (∀ env s2, (splitAfterComma s2).bind b64decode = Option.none →
      extractBytes env (PyVal.pstr s2) = Option.none) ∧
    (∀ env, extractBytes env (PyVal.pdict [("foo", PyVal.pstr "bar")]) = Option.none) := by
  refine ⟨fun env n => rfl, fun env xs => rfl, ?_, ?_, fun env => rfl⟩
  · intro env fields hmiss
    rcases hmiss with hm | hm <;> simp [extractBytes, hm]
  · intro env s2 hdec
    cases hsc : splitAfterComma s2 with
    | none => simp [extractBytes, hsc]
    | some rem =>
        rw [hsc] at hdec
        simp only [Option.some_bind] at hdec
        simp [extractBytes, hsc, hdec]

theorem C8_witness :
    extractBytes envDown (PyVal.pdict [("foo", PyVal.pstr "bar")]) = Option.none :=
  C8_unrecognized_payload.2.2.1 envDown [("foo", PyVal.pstr "bar")] (Or.inl rfl)

/-- C3 (amended): every failure of the image pipeline is surfaced to the
caller of `generate_image` as the single undifferentiated value `None`
(embedded `GenRes.returned Option.none`) — never swallowed into a fake
success — but the code does NOT classify failures in its return value: a
transport failure, a rejected submission and a missing prompt_id all return
the same `None`, the distinctions living only in log messages. -/
theorem C3_failures_collapse (env : ImgEnv) (prompt : String) (fuel st : Nat)
    (body : PyVal) :
    (env.post (submitBody prompt) = Option.none →
      generate_image env prompt fuel = GenRes.returned Option.none) ∧
    (env.post (submitBody prompt) = Option.some (st, body) → st ≠ 200 →
      generate_image env prompt fuel = GenRes.returned Option.none) ∧
    (env.post (submitBody prompt) = Option.some (st, body) → st = 200 →
      pyGetItem body (PyVal.pstr "prompt_id") = Option.none →
      generate_image env prompt fuel = GenRes.returned Option.none) := by
  refine ⟨?_, ?_, ?_⟩
  · intro hp
    simp [generate_image, hp]
  · intro hp hst
    simp [generate_image, hp, hst]
  · intro hp hst hid
    subst hst
    simp [generate_image, hp, hid]

theorem C3_witness :
    generate_image envDown "a cat" 3 = GenRes.returned Option.none :=
  (C3_failures_collapse envDown "a cat" 3 0 (PyVal.pdict [])).1 rfl

/-- C3 counterexample: a rejected submission (status 500) and a completed job
whose payload is malformed are failures of different kinds, yet
`generate_image` returns the identical undifferentiated value `None` for
both — the return value does not distinguish the kinds, refuting the claim
that the core returns a classified result. -/
theorem C3_counterexample :
    generate_image envRejected "a cat" 3 = GenRes.returned Option.none ∧
    generate_image envMalformed "a cat" 3 = GenRes.returned Option.none ∧
    generate_image envRejected "a cat" 3 = generate_image envMalformed "a cat" 3 :=
  ⟨rfl, rfl, rfl⟩
